import Mathlib

/-!
Verification of the FastAPI_WEB personal book-catalog backend.

The development shallowly embeds the Python sources (`src/main.py`,
`src/database.py`, `src/models.py`, `src/schemes.py`) into Lean:

* passwords are Lean `String`s and their `encode('utf-8')` is the explicit
  byte list `utf8Bytes`;
* the external bcrypt library is modelled as an idealized collision-free
  keyed digest (`bcryptDigest`): `checkpw` succeeds exactly when the
  candidate bytes equal the originally hashed bytes, and raises (returns
  `Except.error`) on a malformed stored hash — only the library's
  documented input/output contract is modelled, not its internals;
* the JOSE JWT library is modelled as an inductive token type carrying the
  claim set and an HMAC value, with the HMAC modelled as an idealized
  executable keyed function of the payload;
* the SQLAlchemy/SQLite store is a `DB` record holding the `users` and
  `books` rows; each request handler is a pure function from the current
  state (plus the request data and the server-chosen nondeterministic
  inputs: fresh ids, salts, clock) to an `Except`-style HTTP outcome and
  the next state.  Raising `HTTPException` before `commit` leaves the
  state unchanged, which the embedding renders by returning the input
  state on the error branches, exactly where the handler raises.
-/

/-! ## UTF-8 encoding (model of Python's `str.encode('utf-8')`) -/

/-- Standard UTF-8 encoding of a single unicode code point (1–4 bytes). -/
def utf8EncodeChar (c : Char) : List Nat :=
  let n := c.toNat
  if n < 0x80 then [n]
  else if n < 0x800 then
    [0xC0 ||| (n >>> 6), 0x80 ||| (n &&& 0x3F)]
  else if n < 0x10000 then
    [0xE0 ||| (n >>> 12), 0x80 ||| ((n >>> 6) &&& 0x3F), 0x80 ||| (n &&& 0x3F)]
  else
    [0xF0 ||| (n >>> 18), 0x80 ||| ((n >>> 12) &&& 0x3F),
     0x80 ||| ((n >>> 6) &&& 0x3F), 0x80 ||| (n &&& 0x3F)]

/-- The byte sequence `s.encode('utf-8')` of a Python string. -/
def utf8Bytes (s : String) : List Nat :=
  (s.data.map utf8EncodeChar).flatten

/-! ## Credential hasher (src/main.py lines 28–50) -/

/-- The parsed content of a well-formed bcrypt hash string: the cost
factor, the salt, and the digest recorded at hash time. -/
structure BcryptRec where
  rounds : Nat
  salt : Nat
  digest : List Nat
deriving DecidableEq, Repr

/-- Idealized model of the external bcrypt digest primitive: a
collision-free function of the cost factor, the salt and the input bytes.
Only its contract matters to the program: hashing the same bytes under the
same salt reproduces the digest, different (≤ 72-byte) inputs give
different digests. -/
def bcryptDigest (rounds salt : Nat) (input : List Nat) : List Nat :=
  rounds :: salt :: input

/-- A stored `hashed_password` column value: either a well-formed bcrypt
hash string or arbitrary malformed text. -/
inductive StoredHash where
  | wellFormed (h : BcryptRec)
  | malformed (raw : List Nat)
deriving DecidableEq, Repr

/-- Model of `bcrypt.hashpw(password_bytes, bcrypt.gensalt(rounds))`. -/
def bcrypt_hashpw (input : List Nat) (rounds salt : Nat) : StoredHash :=
  .wellFormed ⟨rounds, salt, bcryptDigest rounds salt input⟩

/-- Model of `bcrypt.checkpw(password_bytes, hashed_bytes)`: re-computes
the digest under the stored salt and compares; raises (`Except.error`) on
a malformed stored hash. -/
def bcrypt_checkpw (input : List Nat) (stored : StoredHash) : Except Unit Bool :=
  match stored with
  | .malformed _ => .error ()
  | .wellFormed h => .ok (bcryptDigest h.rounds h.salt input == h.digest)

/-- Model of `hash_password` (src/main.py lines 28–37): UTF-8 encode, truncate to
the first 72 bytes when longer, bcrypt-hash with a fresh salt at cost 12.
The fresh random salt is passed in as `salt`. -/
def hash_password (password : String) (salt : Nat) : StoredHash :=
  let password_bytes := utf8Bytes password
  let password_bytes :=
    if password_bytes.length > 72 then password_bytes.take 72 else password_bytes
  bcrypt_hashpw password_bytes 12 salt

/-- Model of `verify_password` (src/main.py lines 40–50): same truncation, then
`bcrypt.checkpw`; the surrounding `try/except` turns any raised error into
`False`. -/
def verify_password (plain_password : String) (hashed_password : StoredHash) : Bool :=
  let password_bytes := utf8Bytes plain_password
  let password_bytes :=
    if password_bytes.length > 72 then password_bytes.take 72 else password_bytes
  match bcrypt_checkpw password_bytes hashed_password with
  | .ok b => b
  | .error _ => false

/-! ## Request schemas (src/schemes.py) -/

/-- Model of `UserRegister` request body. -/
structure UserRegister where
  username : String
  password : String
  email : Option String
  full_name : Option String
deriving DecidableEq, Repr

/-- Pydantic validation of `UserRegister` (src/schemes.py lines 5–9):
`username` 3–50 characters, `password` 6–50 characters.  Pydantic runs
this on the request body before the handler (and hence any storage
access) is reached. -/
def UserRegister.valid (u : UserRegister) : Bool :=
  3 ≤ u.username.length && u.username.length ≤ 50 &&
    6 ≤ u.password.length && u.password.length ≤ 50

/-- Model of `UserUpdate` request body. -/
structure UserUpdate where
  email : Option String
  full_name : Option String
  password : Option String
deriving DecidableEq, Repr

/-- Pydantic validation of `UserUpdate` (src/schemes.py lines 12–15): the
optional `password` must have at least 6 characters when supplied; no
upper bound is declared. -/
def UserUpdate.valid (u : UserUpdate) : Bool :=
  match u.password with
  | none => true
  | some p => 6 ≤ p.length

/-- Model of `BookCreate` request body (also the full `PUT /books/{id}` payload). -/
structure BookCreate where
  title : String
  author : String
  year : Option Int
  description : Option String
deriving DecidableEq, Repr

/-- Pydantic validation of `BookCreate` (src/schemes.py lines 18–22). -/
def BookCreate.valid (b : BookCreate) : Bool :=
  1 ≤ b.title.length && b.title.length ≤ 200 &&
    1 ≤ b.author.length && b.author.length ≤ 100 &&
    (match b.year with
     | none => true
     | some y => 1000 ≤ y && y ≤ 2100)

/-! ## Token issuer/verifier (src/main.py lines 18–20 and 53–67) -/

/-- Model of `ALGORITHM` (src/main.py line 19). -/
def ALGORITHM : String := "HS256"

/-- Model of `ACCESS_TOKEN_EXPIRE_MINUTES` (src/main.py line 20). -/
def ACCESS_TOKEN_EXPIRE_MINUTES : Nat := 10

/-- The JWT claim set the program uses: subject and expiry (seconds since
the epoch). -/
structure JWTPayload where
  sub : String
  exp : Nat
deriving DecidableEq, Repr

/-- Injective numeric encoding of a byte list (base-257 with an offset),
used to feed strings into the idealized MAC below. -/
def natOfBytes (l : List Nat) : Nat :=
  l.foldl (fun a b => a * 257 + (b + 1)) 1

/-- Injective numeric encoding of a string via its UTF-8 bytes. -/
def encodeStr (s : String) : Nat := natOfBytes (utf8Bytes s)

/-- Idealized executable model of the HMAC-SHA256 tag over the encoded
header and claim set under the symmetric secret: an injective pairing of
the key, the header algorithm and the claim set.  Only what the program
observes is modelled: `jwt.decode` recomputes the tag and compares it with
the one attached to the token. -/
def hmacSHA256 (secret : Nat) (alg : String) (payload : JWTPayload) : Nat :=
  Nat.pair secret (Nat.pair (encodeStr alg)
    (Nat.pair (encodeStr payload.sub) payload.exp))

/-- A bearer token as the verifier sees it: either a structurally valid
JWT (header algorithm, claim set, signature value) or malformed text. -/
inductive Token where
  | signed (alg : String) (payload : JWTPayload) (sig : Nat)
  | malformed (raw : String)
deriving DecidableEq, Repr

/-- Model of `jwt.encode(payload, SECRET_KEY, algorithm=ALGORITHM)`. -/
def jwt_encode (secret : Nat) (payload : JWTPayload) : Token :=
  .signed ALGORITHM payload (hmacSHA256 secret ALGORITHM payload)

/-- Model of `jwt.decode(token, SECRET_KEY, algorithms=[ALGORITHM])` at
clock time `now`: raises `JWTError` (the `Except.error` branch) on a
malformed token, a header algorithm outside the allowlist, a bad
signature, or an expired `exp` claim (python-jose rejects exactly when
`exp < now`); otherwise returns the claim set. -/
def jwt_decode (secret now : Nat) (t : Token) : Except Unit JWTPayload :=
  match t with
  | .malformed _ => .error ()
  | .signed alg payload sig =>
    if alg ≠ ALGORITHM then .error ()
    else if sig ≠ hmacSHA256 secret alg payload then .error ()
    else if payload.exp < now then .error ()
    else .ok payload

/-- Model of `create_access_token` (src/main.py lines 53–59): claim set with
subject `username` and expiry `utcnow() + timedelta(minutes=10)`, signed
with the secret; `now` is the issue-time clock reading in seconds. -/
def create_access_token (secret now : Nat) (username : String) : Token :=
  jwt_encode secret ⟨username, now + ACCESS_TOKEN_EXPIRE_MINUTES * 60⟩

/-- Model of `verify_jwt_token` (src/main.py lines 62–67): decode and return the
payload, with the `except JWTError` clause mapping every failure to
`None`. -/
def verify_jwt_token (secret now : Nat) (token : Token) : Option JWTPayload :=
  match jwt_decode secret now token with
  | .ok payload => some payload
  | .error _ => none

/-! ## Persisted rows and database state (src/models.py, src/database.py) -/

/-- A row of the `users` table. -/
structure UserRow where
  id : Nat
  username : String
  hashed_password : StoredHash
  email : Option String
  full_name : Option String
  created_at : Nat
deriving DecidableEq, Repr

/-- A row of the `books` table. -/
structure BookRow where
  id : Nat
  title : String
  author : String
  year : Option Int
  description : Option String
  created_at : Nat
  owner_id : Nat
deriving DecidableEq, Repr

/-- The persisted database state: whether the schema exists, and the rows
of the two tables. -/
structure DB where
  schemaCreated : Bool
  users : List UserRow
  books : List BookRow
deriving DecidableEq, Repr

/-- Model of `Base.metadata.create_all`: creates any missing tables and
touches no existing rows (SQLAlchemy's `create_all` issues only
`CREATE TABLE IF NOT EXISTS` statements). -/
def create_all (db : DB) : DB := { db with schemaCreated := true }

/-- Model of `Base.metadata.drop_all`: drops the tables together with all
their rows. -/
def drop_all (_db : DB) : DB :=
  { schemaCreated := false, users := [], books := [] }

/-- Model of `create_tables` (src/database.py lines 17–20): drop, then recreate the
schema.  This helper is defined but never invoked by the application, and
it is bound to `database.Base`, whose metadata holds no tables (the models
subclass a distinct `Base` in src/models.py); the reading modelled here —
dropping the two application tables — is the most destructive one. -/
def create_tables (db : DB) : DB := create_all (drop_all db)

/-- The `startup` event handler (src/main.py lines 103–106): it runs only
`Base.metadata.create_all`; `create_tables` and `drop_all` are never
called. -/
def startup (db : DB) : DB := create_all db

/-! ## HTTP outcomes and request handlers (src/main.py) -/

/-- An `HTTPException`: status code and detail message. -/
structure Http where
  status : Nat
  detail : String
deriving DecidableEq, Repr

/-- The 400 raised by `register` on a taken username. -/
def usernameExists400 : Http := ⟨400, "Username already exists"⟩

/-- The 400 raised by `register` and `update_my_profile` on a taken
email. -/
def emailRegistered400 : Http := ⟨400, "Email already registered"⟩

/-- The 404 raised by the three per-book endpoints; identical in all
failure cases. -/
def bookNotFound404 : Http := ⟨404, "Book not found"⟩

/-- Python truthiness of an optional string (`if update_data.email:`):
`None` and the empty string are falsy. -/
def optTruthy : Option String → Bool
  | none => false
  | some s => !(s == "")

/-- Replaces the first list element satisfying `p` by its image under `f`;
model of an ORM `UPDATE` of the single row a primary-key lookup found. -/
def updateFirst {α : Type} (p : α → Bool) (f : α → α) : List α → List α
  | [] => []
  | x :: xs => if p x then f x :: xs else x :: updateFirst p f xs

/-- Model of `register` (src/main.py lines 109–151).  `newId`, `salt` and `now` are
the server-chosen fresh primary key, bcrypt salt and clock reading;
`secret` is `SECRET_KEY`.  Returns the HTTP outcome and the state after
the request — unchanged on the branches where the source raises an
`HTTPException` before `db.add`/`commit`. -/
def register (secret : Nat) (db : DB) (user_data : UserRegister)
    (newId salt now : Nat) : Except Http Token × DB :=
  if (db.users.find? (fun u => u.username == user_data.username)).isSome then
    (.error usernameExists400, db)
  else if optTruthy user_data.email &&
      (db.users.find? (fun u => u.email == user_data.email)).isSome then
    (.error emailRegistered400, db)
  else
    let hashed_password := hash_password user_data.password salt
    let new_user : UserRow :=
      ⟨newId, user_data.username, hashed_password, user_data.email,
        user_data.full_name, now⟩
    (.ok (create_access_token secret now user_data.username),
      { db with users := db.users ++ [new_user] })

/-- Model of `login` (src/main.py lines 155–176). -/
def login (secret : Nat) (db : DB) (username password : String) (now : Nat) :
    Except Http Token × DB :=
  match db.users.find? (fun u => u.username == username) with
  | none => (.error ⟨401, "Invalid username or password"⟩, db)
  | some user =>
    if verify_password password user.hashed_password then
      (.ok (create_access_token secret now username), db)
    else
      (.error ⟨401, "Invalid username or password"⟩, db)

/-- Model of `update_my_profile` (src/main.py lines 205–232).  `current_user` is
the authenticated caller's row, `salt` the fresh bcrypt salt used when a
new password is supplied.  Mirrors the source's order: email-conflict
check (raising before any field is assigned), then the email, full_name
and password assignments, then commit. -/
def update_my_profile (db : DB) (current_user : UserRow)
    (update_data : UserUpdate) (salt : Nat) : Except Http UserRow × DB :=
  let emailStep : Except Http UserRow :=
    if optTruthy update_data.email && update_data.email != current_user.email then
      if (db.users.find? (fun u => u.email == update_data.email)).isSome then
        .error emailRegistered400
      else
        .ok { current_user with email := update_data.email }
    else
      .ok current_user
  match emailStep with
  | .error e => (.error e, db)
  | .ok cu =>
    let cu := match update_data.full_name with
      | none => cu
      | some fn => { cu with full_name := some fn }
    let cu := match update_data.password with
      | none => cu
      | some p => if p == "" then cu
                  else { cu with hashed_password := hash_password p salt }
    (.ok cu,
      { db with users :=
          updateFirst (fun u => u.id == current_user.id) (fun _ => cu) db.users })

/-- Model of `add_book` (src/main.py lines 235–254). -/
def add_book (db : DB) (uid : Nat) (book_data : BookCreate)
    (newId now : Nat) : Except Http BookRow × DB :=
  let new_book : BookRow :=
    ⟨newId, book_data.title, book_data.author, book_data.year,
      book_data.description, now, uid⟩
  (.ok new_book, { db with books := db.books ++ [new_book] })

/-- ASCII-only lowercasing, the semantics of SQLite's `lower()` applied by
`ilike` (Lean's `Char.toLower` is likewise ASCII-only). -/
def lowerStr (s : String) : String := ⟨s.data.map Char.toLower⟩

/-- Model of SQL `LIKE` matching of a pattern against a string: `%`
matches any (possibly empty) character sequence and `_` matches exactly
one character; every other pattern character matches itself.  Recursion is
structural on the pattern (the `%` case tries every suffix of the
string). -/
def likeMatch : List Char → List Char → Bool
  | [], s => s.isEmpty
  | '%' :: ps, s => (s.tails).any (fun t => likeMatch ps t)
  | '_' :: ps, s =>
    match s with
    | [] => false
    | _ :: t => likeMatch ps t
  | c :: ps, s =>
    match s with
    | [] => false
    | d :: t => c == d && likeMatch ps t

/-- Model of `column.ilike(f"%\x7bpat\x7d%")`: both sides are lowercased
and the parameter is interpolated unescaped into the `LIKE` pattern, so
`%` and `_` inside the parameter act as wildcards; a parameter free of
wildcards amounts to a case-insensitive substring test. -/
def ilike (fieldVal pat : String) : Bool :=
  likeMatch ('%' :: (lowerStr pat).data ++ ['%']) (lowerStr fieldVal).data

/-- The comparison behind `order_by(Book.created_at.desc())`: `a` may
come before `b` when `a` is at least as new. -/
def bookNewer (a b : BookRow) : Prop := b.created_at ≤ a.created_at

instance : DecidableRel bookNewer := fun a b => Nat.decLe b.created_at a.created_at

instance : IsTotal BookRow bookNewer :=
  ⟨fun a b => (Nat.le_total b.created_at a.created_at).imp id id⟩

instance : IsTrans BookRow bookNewer :=
  ⟨fun _ _ _ hab hbc => le_trans hbc hab⟩

/-- The query built by `get_my_books` before ordering and paging: owner
scoping plus the two optional `ilike` filters, each skipped when its
parameter is `None` or the empty string (both falsy in Python). -/
def books_query (db : DB) (uid : Nat) (author title : Option String) : List BookRow :=
  let q := db.books.filter (fun b => b.owner_id == uid)
  let q := match author with
    | none => q
    | some a => if a == "" then q else q.filter (fun b => ilike b.author a)
  match title with
  | none => q
  | some t => if t == "" then q else q.filter (fun b => ilike b.title t)

/-- What an optional filter parameter demands of a row's field: nothing
when the parameter is absent or empty (falsy); otherwise the lowercased
field must match the `LIKE` pattern `%param%`, in which `%` and `_`
occurring in the parameter act as wildcards (for a wildcard-free
parameter this is exactly a case-insensitive substring test). -/
def passesFilter (param : Option String) (fieldVal : String) : Prop :=
  ∀ s, param = some s → s ≠ "" → ilike fieldVal s = true

/-- Model of `get_my_books` (src/main.py lines 257–279): the scoped,
filtered query, newest-first ordering, then `offset(skip).limit(limit)`.
The source declares `skip: int = 0, limit: int = 100` with no lower
bound, so both are embedded as `Int`; SQLite treats a negative OFFSET as
zero (rendered by `Int.toNat` clamping) and a negative LIMIT as no limit
at all (rendered by the sign test). -/
def get_my_books (db : DB) (uid : Nat) (skip limit : Int)
    (author title : Option String) : List BookRow :=
  let sorted := List.insertionSort bookNewer (books_query db uid author title)
  let paged := sorted.drop skip.toNat
  if limit < 0 then paged else paged.take limit.toNat

/-- Model of `get_book` (src/main.py lines 282–303): single query scoped by both
the book id and the caller's id; 404 when nothing matches. -/
def get_book (db : DB) (uid book_id : Nat) : Except Http BookRow :=
  match db.books.find? (fun b => b.id == book_id && b.owner_id == uid) with
  | none => .error bookNotFound404
  | some book => .ok book

/-- The four assignment statements of `update_book` (src/main.py lines
328–331): full replacement of title, author, year and description; id,
owner and creation timestamp are not assigned. -/
def applyBookPayload (book_data : BookCreate) (book : BookRow) : BookRow :=
  { book with
    title := book_data.title
    author := book_data.author
    year := book_data.year
    description := book_data.description }

/-- Model of `update_book` (src/main.py lines 306–336): same scoped lookup, then
full replacement of title/author/year/description and commit. -/
def update_book (db : DB) (uid book_id : Nat) (book_data : BookCreate) :
    Except Http BookRow × DB :=
  match db.books.find? (fun b => b.id == book_id && b.owner_id == uid) with
  | none => (.error bookNotFound404, db)
  | some book =>
    let book := applyBookPayload book_data book
    let books := updateFirst (fun b => b.id == book_id && b.owner_id == uid)
      (fun _ => book) db.books
    (.ok book, { db with books := books })

/-- Model of `delete_book` (src/main.py lines 339–363): same scoped lookup, then
deletion of the found row and commit. -/
def delete_book (db : DB) (uid book_id : Nat) : Except Http String × DB :=
  match db.books.find? (fun b => b.id == book_id && b.owner_id == uid) with
  | none => (.error bookNotFound404, db)
  | some _ =>
    (.ok "Book deleted successfully",
      { db with books :=
          db.books.eraseP (fun b => b.id == book_id && b.owner_id == uid) })

/-! ## Concrete fixtures used to instantiate the theorems -/

/-- A registered user "alice". -/
def exUserAlice : UserRow :=
  ⟨1, "alice", hash_password "secret1" 5, some "alice@example.com", none, 100⟩

/-- A registered user "bob". -/
def exUserBob : UserRow :=
  ⟨2, "bob", hash_password "hunter22" 6, some "bob@example.com", none, 101⟩

/-- A book owned by alice. -/
def exBookDune : BookRow := ⟨5, "Dune", "Herbert", some 1965, none, 200, 1⟩

/-- An older book owned by alice. -/
def exBookHobbit : BookRow := ⟨6, "The Hobbit", "Tolkien", some 1937, none, 150, 1⟩

/-- A database with two users and two books, both books owned by alice. -/
def exDB : DB := ⟨true, [exUserAlice, exUserBob], [exBookDune, exBookHobbit]⟩

/-! ## Helper lemmas on the hasher -/

theorem trunc72_eq_take (b : List Nat) :
    (if b.length > 72 then b.take 72 else b) = b.take 72 := by
  split
  · rfl
  · exact (List.take_of_length_le (by omega)).symm

theorem verify_hash_eq (p q : String) (salt : Nat) :
    verify_password q (hash_password p salt)
      = ((utf8Bytes q).take 72 == (utf8Bytes p).take 72) := by
  simp only [verify_password, hash_password, bcrypt_hashpw, bcrypt_checkpw,
    bcryptDigest, trunc72_eq_take]
  by_cases h : (utf8Bytes q).take 72 = (utf8Bytes p).take 72
  · simp [h]
  · simp [h]

/-! ## Claim C2: hashing and verification agree on the 72-byte prefix -/

/-- Claim C2: for every password `p` and salt, `verify_password` accepts
`hash_password p` — including when the UTF-8 encoding of `p` is longer
than 72 bytes; any `p'` agreeing with `p` on the first 72 encoded bytes
also verifies against `p`'s hash, and any password disagreeing with `p`
within those 72 bytes is rejected. -/
theorem hash_verify_roundtrip (p p' w : String) (salt : Nat) :
    verify_password p (hash_password p salt) = true
    ∧ ((utf8Bytes p').take 72 = (utf8Bytes p).take 72 →
        verify_password p' (hash_password p salt) = true)
    ∧ ((utf8Bytes w).take 72 ≠ (utf8Bytes p).take 72 →
        verify_password w (hash_password p salt) = false) := by
  refine ⟨?_, fun h => ?_, fun h => ?_⟩
  · simp [verify_hash_eq]
  · simp [verify_hash_eq, h]
  · simp [verify_hash_eq, h]

/-- Witness for C2 at an 80-character password: the tail beyond 72 bytes
is ignored consistently, and a password differing inside the first 72
bytes is rejected. -/
theorem hash_verify_roundtrip_witness :
    verify_password
        "aaaaaaaaaaaaaaaaaaaaaaaaaaaaaaaaaaaaaaaaaaaaaaaaaaaaaaaaaaaaaaaaaaaaaaaaaaaaaaaa"
        (hash_password
          "aaaaaaaaaaaaaaaaaaaaaaaaaaaaaaaaaaaaaaaaaaaaaaaaaaaaaaaaaaaaaaaaaaaaaaaaaaaaaaaa" 5)
      = true
    ∧ verify_password
        "aaaaaaaaaaaaaaaaaaaaaaaaaaaaaaaaaaaaaaaaaaaaaaaaaaaaaaaaaaaaaaaaaaaaaaaabbbbbbbb"
        (hash_password
          "aaaaaaaaaaaaaaaaaaaaaaaaaaaaaaaaaaaaaaaaaaaaaaaaaaaaaaaaaaaaaaaaaaaaaaaaaaaaaaaa" 5)
      = true
    ∧ verify_password "wrongpass"
        (hash_password
          "aaaaaaaaaaaaaaaaaaaaaaaaaaaaaaaaaaaaaaaaaaaaaaaaaaaaaaaaaaaaaaaaaaaaaaaaaaaaaaaa" 5)
      = false :=
  ⟨(hash_verify_roundtrip
      "aaaaaaaaaaaaaaaaaaaaaaaaaaaaaaaaaaaaaaaaaaaaaaaaaaaaaaaaaaaaaaaaaaaaaaaaaaaaaaaa"
      "x" "y" 5).1,
   (hash_verify_roundtrip
      "aaaaaaaaaaaaaaaaaaaaaaaaaaaaaaaaaaaaaaaaaaaaaaaaaaaaaaaaaaaaaaaaaaaaaaaaaaaaaaaa"
      "aaaaaaaaaaaaaaaaaaaaaaaaaaaaaaaaaaaaaaaaaaaaaaaaaaaaaaaaaaaaaaaaaaaaaaaabbbbbbbb"
      "y" 5).2.1 (by decide),
   (hash_verify_roundtrip
      "aaaaaaaaaaaaaaaaaaaaaaaaaaaaaaaaaaaaaaaaaaaaaaaaaaaaaaaaaaaaaaaaaaaaaaaaaaaaaaaa"
      "x" "wrongpass" 5).2.2 (by decide)⟩

/-! ## Claim C9: verification never raises -/

/-- Claim C9: `verify_password` is a total Boolean function; on a
malformed stored hash — and in general whenever the underlying
`bcrypt.checkpw` raises — the `try/except` makes it return `false` rather
than propagate the exception. -/
theorem verify_password_swallows_errors (p : String) (raw : List Nat) (stored : StoredHash) :
    verify_password p (.malformed raw) = false
    ∧ ((∃ e, bcrypt_checkpw ((utf8Bytes p).take 72) stored = .error e) →
        verify_password p stored = false) := by
  constructor
  · simp [verify_password, bcrypt_checkpw]
  · rintro ⟨e, he⟩
    simp only [verify_password, trunc72_eq_take]
    rw [he]

/-- Witness for C9 at a concrete malformed hash value. -/
theorem verify_password_swallows_errors_witness :
    verify_password "secret1" (.malformed [1, 2, 3]) = false
    ∧ verify_password "secret1" (.malformed [9]) = false :=
  ⟨(verify_password_swallows_errors "secret1" [1, 2, 3] (.malformed [9])).1,
   (verify_password_swallows_errors "secret1" [1, 2, 3] (.malformed [9])).2 ⟨(), rfl⟩⟩

/-! ## Claim C10: the two password-length policies differ -/

/-- Claim C10: `POST /register` validates (before any storage access,
since pydantic rejects the body first) that the password has 6–50
characters, while `PUT /me` only requires at least 6 characters with no
upper bound — so a password longer than 50 characters can be set only via
profile update. -/
theorem password_length_policy (u : UserRegister) (v : UserUpdate) (p : String) :
    (u.valid = true → 6 ≤ u.password.length ∧ u.password.length ≤ 50)
    ∧ ((u.password.length < 6 ∨ 50 < u.password.length) → u.valid = false)
    ∧ (v.password = some p → (v.valid = true ↔ 6 ≤ p.length)) := by
  refine ⟨?_, ?_, fun hv => ?_⟩
  · intro h
    simp only [UserRegister.valid, Bool.and_eq_true, decide_eq_true_eq] at h
    omega
  · intro h
    rcases h with h | h
    · have hne : ¬ (6 ≤ u.password.length) := by omega
      simp [UserRegister.valid, hne]
    · have hne : ¬ (u.password.length ≤ 50) := by omega
      simp [UserRegister.valid, hne]
  · simp [UserUpdate.valid, hv]

/-- Witness for C10: a 60-character password is rejected by the
registration schema but accepted by the profile-update schema. -/
theorem password_length_policy_witness :
    (⟨"alice", "aaaaaaaaaaaaaaaaaaaaaaaaaaaaaaaaaaaaaaaaaaaaaaaaaaaaaaaaaaaa", none, none⟩
        : UserRegister).valid = false
    ∧ (⟨none, none,
        some "aaaaaaaaaaaaaaaaaaaaaaaaaaaaaaaaaaaaaaaaaaaaaaaaaaaaaaaaaaaa"⟩
        : UserUpdate).valid = true :=
  ⟨(password_length_policy
      ⟨"alice", "aaaaaaaaaaaaaaaaaaaaaaaaaaaaaaaaaaaaaaaaaaaaaaaaaaaaaaaaaaaa", none, none⟩
      ⟨none, none, none⟩ "x").2.1 (Or.inr (by decide)),
   ((password_length_policy ⟨"a", "b", none, none⟩
      ⟨none, none,
        some "aaaaaaaaaaaaaaaaaaaaaaaaaaaaaaaaaaaaaaaaaaaaaaaaaaaaaaaaaaaa"⟩
      "aaaaaaaaaaaaaaaaaaaaaaaaaaaaaaaaaaaaaaaaaaaaaaaaaaaaaaaaaaaa").2.2 rfl).mpr
      (by decide)⟩

/-! ## Claim C3: token lifecycle -/

/-- Claim C3: a token minted by `create_access_token` for `U` carries
subject `U` and expiry issue-time + 10 minutes and is signed with
HMAC-SHA256 under the secret; `verify_jwt_token` returns its claim set
while the token is unexpired, and returns the single sentinel `none` after
expiry, on a bad signature, and on malformed input alike. -/
theorem token_lifecycle (secret now t sig : Nat) (U raw : String) (payload : JWTPayload) :
    create_access_token secret now U = jwt_encode secret ⟨U, now + 600⟩
    ∧ (t ≤ now + 600 →
        verify_jwt_token secret t (create_access_token secret now U)
          = some ⟨U, now + 600⟩)
    ∧ (now + 600 < t →
        verify_jwt_token secret t (create_access_token secret now U) = none)
    ∧ (sig ≠ hmacSHA256 secret ALGORITHM payload →
        verify_jwt_token secret t (.signed ALGORITHM payload sig) = none)
    ∧ verify_jwt_token secret t (.malformed raw) = none := by
  refine ⟨rfl, fun h => ?_, fun h => ?_, fun h => ?_, rfl⟩
  · have hlt : ¬ (now + 10 * 60 < t) := by omega
    simp [verify_jwt_token, jwt_decode, create_access_token, jwt_encode,
      ACCESS_TOKEN_EXPIRE_MINUTES, hlt]
  · have hlt : now + 10 * 60 < t := by omega
    simp [verify_jwt_token, jwt_decode, create_access_token, jwt_encode,
      ACCESS_TOKEN_EXPIRE_MINUTES, hlt]
  · simp [verify_jwt_token, jwt_decode, h]

/-- Witness for C3 at secret 7, issue time 1000, subject "alice": valid at
time 1300, invalid at 1601, invalid with a zero signature, invalid on
malformed input. -/
theorem token_lifecycle_witness :
    verify_jwt_token 7 1300 (create_access_token 7 1000 "alice") = some ⟨"alice", 1600⟩
    ∧ verify_jwt_token 7 1601 (create_access_token 7 1000 "alice") = none
    ∧ verify_jwt_token 7 1300 (.signed ALGORITHM ⟨"alice", 1600⟩ 0) = none
    ∧ verify_jwt_token 7 1300 (.malformed "garbage") = none :=
  ⟨(token_lifecycle 7 1000 1300 0 "alice" "garbage" ⟨"alice", 1600⟩).2.1 (by decide),
   (token_lifecycle 7 1000 1601 0 "alice" "garbage" ⟨"alice", 1600⟩).2.2.1 (by decide),
   (token_lifecycle 7 1000 1300 0 "alice" "garbage" ⟨"alice", 1600⟩).2.2.2.1 (by decide),
   (token_lifecycle 7 1000 1300 0 "alice" "garbage" ⟨"alice", 1600⟩).2.2.2.2⟩

/-! ## Claim C4: duplicate registration is rejected without a write -/

/-- Claim C4: when a user with the requested username already exists,
`register` fails with the 400 conflict and returns the database unchanged
— no duplicate row and no new user. -/
theorem register_duplicate_username (secret : Nat) (db : DB) (u : UserRegister)
    (newId salt now : Nat) (hdup : ∃ x ∈ db.users, x.username = u.username) :
    register secret db u newId salt now = (.error usernameExists400, db) := by
  have hfind : (db.users.find? (fun x => x.username == u.username)).isSome = true := by
    rw [List.find?_isSome]
    obtain ⟨x, hx, he⟩ := hdup
    exact ⟨x, hx, by simp [he]⟩
  simp [register, hfind]

/-- Witness for C4: registering "alice" a second time against `exDB`. -/
theorem register_duplicate_username_witness :
    register 7 exDB ⟨"alice", "secret99", none, none⟩ 3 9 500
      = (.error usernameExists400, exDB) :=
  register_duplicate_username 7 exDB ⟨"alice", "secret99", none, none⟩ 3 9 500
    ⟨exUserAlice, by simp [exDB], rfl⟩

/-! ## Claim C6: email conflict on profile update leaves the record intact -/

/-- Claim C6: a `PUT /me` whose email equals one already used by a
different account fails with the 400 conflict and leaves the database —
in particular the caller's stored email, full name and password hash —
exactly as before; no partial update survives. -/
theorem update_profile_email_conflict (db : DB) (cu : UserRow) (upd : UserUpdate)
    (salt : Nat) (e : String) (hupd : upd.email = some e) (hne : e ≠ "")
    (hcu : cu.email ≠ some e) (hex : ∃ x ∈ db.users, x.email = some e) :
    update_my_profile db cu upd salt = (.error emailRegistered400, db) := by
  have htr : optTruthy upd.email = true := by simp [optTruthy, hupd, hne]
  have hneq : (upd.email != cu.email) = true := by
    rw [hupd]
    simp only [bne_iff_ne, ne_eq]
    exact fun hh => hcu hh.symm
  have hfind : (db.users.find? (fun x => x.email == upd.email)).isSome = true := by
    rw [List.find?_isSome]
    obtain ⟨x, hx, hxe⟩ := hex
    exact ⟨x, hx, by simp [hupd, hxe]⟩
  simp [update_my_profile, htr, hneq, hfind]

/-- Witness for C6: bob attempts to take alice's email. -/
theorem update_profile_email_conflict_witness :
    update_my_profile exDB exUserBob ⟨some "alice@example.com", none, none⟩ 9
      = (.error emailRegistered400, exDB) :=
  update_profile_email_conflict exDB exUserBob ⟨some "alice@example.com", none, none⟩ 9
    "alice@example.com" rfl (by decide) (by decide)
    ⟨exUserAlice, by simp [exDB], rfl⟩

/-! ## Claim C1: the per-book endpoints are owner-scoped -/

/-- Claim C1: `GET`, `PUT` and `DELETE /books/{id}` succeed exactly when a
book with that id exists and is owned by the caller; `GET`'s returned book
is that owned book; and whenever no such owned book exists — whether the
id is absent altogether or the book belongs to someone else — all three
endpoints return the identical 404 response and leave the state unchanged,
so the two failure cases are indistinguishable and no cross-user access is
possible. -/
theorem book_endpoints_owner_scoped (db : DB) (uid bid : Nat) (payload : BookCreate) :
    ((get_book db uid bid).isOk = true ↔ ∃ b ∈ db.books, b.id = bid ∧ b.owner_id = uid)
    ∧ (∀ b, get_book db uid bid = .ok b → b ∈ db.books ∧ b.id = bid ∧ b.owner_id = uid)
    ∧ ((update_book db uid bid payload).1.isOk = true
        ↔ ∃ b ∈ db.books, b.id = bid ∧ b.owner_id = uid)
    ∧ ((delete_book db uid bid).1.isOk = true
        ↔ ∃ b ∈ db.books, b.id = bid ∧ b.owner_id = uid)
    ∧ (¬ (∃ b ∈ db.books, b.id = bid ∧ b.owner_id = uid) →
        get_book db uid bid = .error bookNotFound404
        ∧ update_book db uid bid payload = (.error bookNotFound404, db)
        ∧ delete_book db uid bid = (.error bookNotFound404, db)) := by
  have hiff : (db.books.find? (fun b => b.id == bid && b.owner_id == uid)).isSome = true
      ↔ ∃ b ∈ db.books, b.id = bid ∧ b.owner_id = uid := by
    rw [List.find?_isSome]
    constructor
    · rintro ⟨x, hx, hp⟩
      simp only [Bool.and_eq_true, beq_iff_eq] at hp
      exact ⟨x, hx, hp⟩
    · rintro ⟨x, hx, h1, h2⟩
      exact ⟨x, hx, by simp [h1, h2]⟩
  cases hfind : db.books.find? (fun b => b.id == bid && b.owner_id == uid) with
  | none =>
    have hno : ¬ ∃ b ∈ db.books, b.id = bid ∧ b.owner_id = uid := by
      rw [← hiff, hfind]
      simp
    refine ⟨?_, ?_, ?_, ?_, fun _ => ?_⟩
    · simp [get_book, hfind, hno, Except.isOk, Except.toBool]
    · intro b hb
      simp [get_book, hfind] at hb
    · simp [update_book, hfind, hno, Except.isOk, Except.toBool]
    · simp [delete_book, hfind, hno, Except.isOk, Except.toBool]
    · exact ⟨by simp [get_book, hfind], by simp [update_book, hfind],
        by simp [delete_book, hfind]⟩
  | some b =>
    have hmem : b ∈ db.books := List.mem_of_find?_eq_some hfind
    have hprop : b.id = bid ∧ b.owner_id = uid := by
      have := List.find?_some hfind
      simpa [Bool.and_eq_true, beq_iff_eq] using this
    have hex : ∃ x ∈ db.books, x.id = bid ∧ x.owner_id = uid := ⟨b, hmem, hprop⟩
    refine ⟨?_, ?_, ?_, ?_, fun hno => absurd hex hno⟩
    · simp [get_book, hfind, hex, Except.isOk, Except.toBool]
    · intro b' hb'
      simp only [get_book, hfind] at hb'
      cases hb'
      exact ⟨hmem, hprop⟩
    · simp [update_book, hfind, hex, Except.isOk, Except.toBool]
    · simp [delete_book, hfind, hex, Except.isOk, Except.toBool]

/-- Witness for C1: alice reads her own book; bob, guessing the same id,
gets the very 404 an absent id produces, from all three endpoints. -/
theorem book_endpoints_owner_scoped_witness :
    (get_book exDB 1 5).isOk = true
    ∧ get_book exDB 2 5 = .error bookNotFound404
    ∧ update_book exDB 2 5 ⟨"X", "Y", none, none⟩ = (.error bookNotFound404, exDB)
    ∧ delete_book exDB 2 5 = (.error bookNotFound404, exDB) :=
  ⟨(book_endpoints_owner_scoped exDB 1 5 ⟨"X", "Y", none, none⟩).1.mpr
      ⟨exBookDune, by simp [exDB], rfl, rfl⟩,
   (book_endpoints_owner_scoped exDB 2 5 ⟨"X", "Y", none, none⟩).2.2.2.2 (by decide)⟩

/-! ## Claim C8: a successful book update replaces exactly the payload
fields of exactly that book -/

/-- Decomposition of `updateFirst` at the element `find?` locates: the
list splits around the (first) match, and `updateFirst` rewrites exactly
that element, leaving the prefix and suffix untouched. -/
theorem updateFirst_decomp {α : Type} (p : α → Bool) (f : α → α) (l : List α) (b : α)
    (h : l.find? p = some b) :
    ∃ l₁ l₂, l = l₁ ++ b :: l₂ ∧ (∀ x ∈ l₁, p x = false)
      ∧ updateFirst p f l = l₁ ++ f b :: l₂ := by
  induction l with
  | nil => simp at h
  | cons x xs ih =>
    by_cases hp : p x
    · rw [List.find?_cons_of_pos _ hp] at h
      have hb : x = b := by injection h
      subst hb
      exact ⟨[], xs, rfl, by simp, by simp [updateFirst, hp]⟩
    · rw [List.find?_cons_of_neg _ hp] at h
      obtain ⟨l₁, l₂, hl, hl₁, hu⟩ := ih h
      refine ⟨x :: l₁, l₂, by simp [hl], ?_, ?_⟩
      · intro y hy
        rcases List.mem_cons.mp hy with hy | hy
        · subst hy
          simpa using hp
        · exact hl₁ y hy
      · simp [updateFirst, hp, hu]

/-- Claim C8: when the scoped lookup of `PUT /books/{id}` succeeds on book
`b`, the response is a book carrying the payload's title, author, year and
description (omitted optional fields becoming absent) with `b`'s id,
owner and creation timestamp; the stored state keeps every user row and
every other book row unchanged and in place, with only `b` replaced. -/
theorem update_book_frame (db : DB) (uid bid : Nat) (payload : BookCreate) (b : BookRow)
    (hfind : db.books.find? (fun x => x.id == bid && x.owner_id == uid) = some b) :
    ∃ b' db',
      update_book db uid bid payload = (.ok b', db')
      ∧ b'.id = b.id ∧ b'.owner_id = b.owner_id ∧ b'.created_at = b.created_at
      ∧ b'.title = payload.title ∧ b'.author = payload.author
      ∧ b'.year = payload.year ∧ b'.description = payload.description
      ∧ db'.users = db.users
      ∧ db'.schemaCreated = db.schemaCreated
      ∧ ∃ l₁ l₂, db.books = l₁ ++ b :: l₂ ∧ db'.books = l₁ ++ b' :: l₂ := by
  obtain ⟨l₁, l₂, hl, -, hu⟩ :=
    updateFirst_decomp (fun x => x.id == bid && x.owner_id == uid)
      (fun _ => applyBookPayload payload b) db.books b hfind
  refine ⟨applyBookPayload payload b,
    { db with books := l₁ ++ applyBookPayload payload b :: l₂ },
    ?_, rfl, rfl, rfl, rfl, rfl, rfl, rfl, rfl, rfl, l₁, l₂, hl, rfl⟩
  simp only [update_book, hfind]
  rw [hu]

/-- Witness for C8: alice updates her book with id 5 in `exDB`. -/
theorem update_book_frame_witness :
    ∃ b' db',
      update_book exDB 1 5 ⟨"Dune Messiah", "Herbert", some 1969, none⟩ = (.ok b', db')
      ∧ b'.id = exBookDune.id ∧ b'.owner_id = exBookDune.owner_id
      ∧ b'.created_at = exBookDune.created_at
      ∧ b'.title = "Dune Messiah" ∧ b'.author = "Herbert"
      ∧ b'.year = some 1969 ∧ b'.description = none
      ∧ db'.users = exDB.users
      ∧ db'.schemaCreated = exDB.schemaCreated
      ∧ ∃ l₁ l₂, exDB.books = l₁ ++ exBookDune :: l₂ ∧ db'.books = l₁ ++ b' :: l₂ :=
  update_book_frame exDB 1 5 ⟨"Dune Messiah", "Herbert", some 1969, none⟩ exBookDune
    (by decide)

/-! ## Claim C5: what actually happens to the data at startup -/

/-- Counterexample to C5 as stated: after `startup` runs on a database
holding a user and a book, both rows are still there — nothing is
wiped. -/
theorem startup_wipes_counterexample :
    (startup ⟨true, [exUserAlice], [exBookDune]⟩).users ≠ []
    ∧ (startup ⟨true, [exUserAlice], [exBookDune]⟩).books ≠ [] := by
  decide

/-- Claim C5 (amended): the startup handler runs only `create_all`, which
creates missing tables and preserves every persisted user and book row;
the destructive drop-and-recreate helper `create_tables` exists in
src/database.py but is never invoked at startup, so no data is wiped on a
restart (had it been invoked, it would have emptied both tables). -/
theorem startup_nondestructive (db : DB) :
    (startup db).users = db.users ∧ (startup db).books = db.books
    ∧ (startup db).schemaCreated = true
    ∧ (create_tables db).users = [] ∧ (create_tables db).books = [] :=
  ⟨rfl, rfl, rfl, rfl, rfl⟩

/-! ## Claim C7: listing books -/

theorem passesFilter_none (fieldVal : String) : passesFilter none fieldVal := by
  intro s hs
  cases hs

theorem passesFilter_empty (fieldVal : String) : passesFilter (some "") fieldVal := by
  intro s hs hne
  injection hs with h
  exact absurd h.symm hne

theorem passesFilter_some (a fieldVal : String) (h : ilike fieldVal a = true) :
    passesFilter (some a) fieldVal := by
  intro s hs _
  injection hs with hh
  exact hh ▸ h

theorem passesFilter_some_iff (a fieldVal : String) (hne : a ≠ "") :
    passesFilter (some a) fieldVal ↔ ilike fieldVal a = true :=
  ⟨fun h => h a rfl hne, passesFilter_some a fieldVal⟩

theorem mem_books_query (db : DB) (uid : Nat) (author title : Option String) (b : BookRow) :
    b ∈ books_query db uid author title
      ↔ b ∈ db.books ∧ b.owner_id = uid
        ∧ passesFilter author b.author ∧ passesFilter title b.title := by
  unfold books_query
  rcases author with _ | a <;> rcases title with _ | t
  · simp [List.mem_filter, passesFilter_none]
  · by_cases ht : t = ""
    · subst ht
      simp [List.mem_filter, passesFilter_none, passesFilter_empty]
    · have ht' : (t == "") = false := by simp [ht]
      simp [List.mem_filter, ht', passesFilter_none, passesFilter_some_iff t _ ht,
        and_assoc, and_comm, and_left_comm]
  · by_cases ha : a = ""
    · subst ha
      simp [List.mem_filter, passesFilter_none, passesFilter_empty]
    · have ha' : (a == "") = false := by simp [ha]
      simp [List.mem_filter, ha', passesFilter_none, passesFilter_some_iff a _ ha,
        and_assoc, and_comm, and_left_comm]
  · by_cases ha : a = "" <;> by_cases ht : t = ""
    · subst ha; subst ht
      simp [List.mem_filter, passesFilter_empty]
    · subst ha
      have ht' : (t == "") = false := by simp [ht]
      simp [List.mem_filter, ht', passesFilter_empty, passesFilter_some_iff t _ ht,
        and_assoc, and_comm, and_left_comm]
    · subst ht
      have ha' : (a == "") = false := by simp [ha]
      simp [List.mem_filter, ha', passesFilter_empty, passesFilter_some_iff a _ ha,
        and_assoc, and_comm, and_left_comm]
    · have ha' : (a == "") = false := by simp [ha]
      have ht' : (t == "") = false := by simp [ht]
      simp [List.mem_filter, ha', ht', passesFilter_some_iff a _ ha,
        passesFilter_some_iff t _ ht, and_assoc, and_comm, and_left_comm]

theorem books_query_length_le (db : DB) (uid : Nat) (author title : Option String) :
    (books_query db uid author title).length ≤ db.books.length := by
  have h0 : (db.books.filter (fun x => x.owner_id == uid)).length ≤ db.books.length :=
    List.length_filter_le _ _
  unfold books_query
  rcases author with _ | a <;> rcases title with _ | t
  · exact h0
  · dsimp only
    split
    · exact h0
    · exact le_trans (List.length_filter_le _ _) h0
  · dsimp only
    split
    · exact h0
    · exact le_trans (List.length_filter_le _ _) h0
  · dsimp only
    split
    · split
      · exact h0
      · exact le_trans (List.length_filter_le _ _) h0
    · split
      · exact le_trans (List.length_filter_le _ _) h0
      · exact le_trans (List.length_filter_le _ _)
          (le_trans (List.length_filter_le _ _) h0)

/-- Counterexample to C7 as stated: alice owns a book authored "Herbert",
yet `GET /books` with the filter `author=here` returns the empty list —
"here" is not a substring of "herbert" and contains no wildcard. -/
theorem get_my_books_here_counterexample :
    exBookDune ∈ exDB.books ∧ exBookDune.author = "Herbert"
    ∧ exBookDune.owner_id = 1
    ∧ get_my_books exDB 1 0 100 (some "here") none = [] := by
  decide

/-- Claim C7 (amended): `GET /books` returns only the caller's books
whose lowercased author (resp. title) matches the SQL `LIKE` pattern
`%param%` when that parameter is supplied and non-empty — for a parameter
without the wildcard characters `%` and `_` this is exactly a
case-insensitive substring test, but wildcards in the parameter are
interpolated unescaped (e.g. `author=a_b` matches "aXb"); results come
newest-first by creation timestamp, the first `max(skip, 0)` are dropped,
and at most `limit` are returned when `limit` is non-negative (SQLite
treats a negative limit as no limit, so `skip = 0, limit = -1` returns
every matching book).  The filter `author=herb` matches a book authored
"Herbert"; `author=here` does not, "here" not being a substring of
"Herbert". -/
theorem get_my_books_spec (db : DB) (uid : Nat) (skip limit : Int)
    (author title : Option String) :
    (∀ b ∈ get_my_books db uid skip limit author title,
        b ∈ db.books ∧ b.owner_id = uid
          ∧ passesFilter author b.author ∧ passesFilter title b.title)
    ∧ (0 ≤ limit → (get_my_books db uid skip limit author title).length ≤ limit.toNat)
    ∧ List.Sorted bookNewer (get_my_books db uid skip limit author title)
    ∧ (∀ b ∈ db.books, b.owner_id = uid →
        passesFilter author b.author → passesFilter title b.title →
          b ∈ get_my_books db uid 0 (-1) author title)
    ∧ ilike "Herbert" "herb" = true
    ∧ ilike "Herbert" "here" = false
    ∧ ilike "aXb" "a_b" = true := by
  have hsub : (get_my_books db uid skip limit author title).Sublist
      (List.insertionSort bookNewer (books_query db uid author title)) := by
    simp only [get_my_books]
    split
    · exact List.drop_sublist _ _
    · exact (List.take_sublist _ _).trans (List.drop_sublist _ _)
  refine ⟨?_, ?_, ?_, ?_, by decide, by decide, by decide⟩
  · intro b hb
    exact (mem_books_query db uid author title b).mp
      ((List.mem_insertionSort _).mp (List.Sublist.mem hb hsub))
  · intro hlim
    simp only [get_my_books]
    rw [if_neg (by omega), List.length_take]
    exact min_le_left _ _
  · exact List.Pairwise.sublist hsub (List.sorted_insertionSort bookNewer _)
  · intro b hb howner hpa hpt
    have hs : b ∈ List.insertionSort bookNewer (books_query db uid author title) :=
      (List.mem_insertionSort _).mpr
        ((mem_books_query db uid author title b).mpr ⟨hb, howner, hpa, hpt⟩)
    simp only [get_my_books]
    rw [if_pos (by omega)]
    simpa using hs

/-- Witness for C7 (amended): `author=herb` does return alice's book
authored "Herbert". -/
theorem get_my_books_spec_witness :
    exBookDune ∈ get_my_books exDB 1 0 (-1) (some "herb") none
    ∧ ilike "Herbert" "herb" = true :=
  ⟨(get_my_books_spec exDB 1 0 (-1) (some "herb") none).2.2.2.1 exBookDune
      (by decide) (by decide)
      (passesFilter_some "herb" exBookDune.author (by decide))
      (passesFilter_none exBookDune.title),
   (get_my_books_spec exDB 1 0 0 none none).2.2.2.2.1⟩
